import Mathlib

/-
Verification of the mail_scheduler scheduled-submission core.

Shallow embedding of the Python sources:
  - mail_scheduler/tasks.py              (reconciliation sweep)
  - mail_scheduler/api/mail.py           (schedule-time validation, cancel, reschedule, listing)
  - mail_scheduler/api/scheduled.py      (cancel, reschedule, listing)
  - mail_scheduler/monkey_patches.py     (patched email_create, envelope builder)
  - mail_scheduler/jmap/futurerelease.py (envelope builder, hold-until encoding)

Times are modelled as epoch seconds: Int where second precision suffices,
Rat where sub-second fractions matter (Python timestamps are floats).
Statuses and error messages are the literal strings of the source.
Remote JMAP calls are modelled by an abstract outcome parameter, since the
embedded functions only branch on whether the call raised.
-/

set_option autoImplicit false

namespace MailScheduler

/-! ## Reconciliation sweep (tasks.py) -/

/-- Remote EmailSubmission object as consumed by the sweep: only the
undoStatus field is read, and it may be absent from the response object. -/
structure Submission where
  undoStatus : Option String
  deriving Repr, DecidableEq

/-- Embeds tasks.py `_check_if_sent`: if the scheduled time has passed
(strictly before now), mark the record Sent, otherwise leave its status. -/
def check_if_sent (scheduled_at now : Int) (status : String) : String :=
  if scheduled_at < now then "Sent" else status

/-- Embeds the per-record body of tasks.py `check_scheduled_emails_status`:
the new status of one record, given the remote submission report for its
submission_id (`none` when the id is missing from the response list). -/
def sweep_record_status (status : String) (submission : Option Submission)
    (scheduled_at now : Int) : String :=
  match submission with
  | none => check_if_sent scheduled_at now status
  | some s =>
    if s.undoStatus = some "final" then "Sent"
    else if s.undoStatus = some "canceled" then "Cancelled"
    else status

/-! ## Schedule-time validation (api/mail.py `_validate_schedule_time`) -/

/-- Caller-supplied scheduled_at string, classified by how
frappe.utils.get_datetime treats it: empty (falsy, skipped by the guard),
unparsable (get_datetime raises), or parsing to an absolute instant
(epoch seconds). -/
inductive SchedInput where
  | empty
  | unparsable
  | instant (t : Int)
  deriving Repr, DecidableEq

/-- Outcome of `_validate_schedule_time`: a normal return, or one of the
three SchedulerValidationError messages it can raise. -/
inductive ValidationOutcome where
  | ok
  | invalidFormat
  | tooSoon
  | tooFar
  deriving Repr, DecidableEq

def MIN_SCHEDULE_MINUTES : Int := 1

def MAX_SCHEDULE_DAYS : Int := 30

/-- Embeds api/mail.py `_validate_schedule_time`: empty input returns
at once; unparsable input raises the invalid-format error; an instant
earlier than now + 1 minute raises too-soon; an instant later than
now + 30 days raises too-far; everything else passes. -/
def validate_schedule_time (scheduled_at : SchedInput) (now : Int) : ValidationOutcome :=
  match scheduled_at with
  | .empty => .ok
  | .unparsable => .invalidFormat
  | .instant t =>
    if t < now + MIN_SCHEDULE_MINUTES * 60 then .tooSoon
    else if t > now + MAX_SCHEDULE_DAYS * 86400 then .tooFar
    else .ok

/-! ## Hold-until encoding and envelope builders
(jmap/futurerelease.py, monkey_patches.py) -/

/-- A caller-side timezone representation of an instant: the wall-clock
reading expressed as epoch seconds in some zone, together with that zone's
UTC offset in seconds. Python datetime.timestamp() on the value that
frappe get_datetime yields recovers the absolute instant. Rationals model
the sub-second fraction of Python float timestamps. -/
structure LocalRepr where
  wall : Rat
  tzOffset : Rat
  deriving Repr, DecidableEq

/-- The absolute instant (epoch seconds) a representation denotes; this is
what Python datetime.timestamp() returns for it. -/
def LocalRepr.timestamp (r : LocalRepr) : Rat := r.wall - r.tzOffset

/-- Python int() on a float: truncation toward zero. -/
def pyInt (q : Rat) : Int := if 0 ≤ q then ⌊q⌋ else ⌈q⌉

/-- One rcptTo entry of a JMAP submission envelope. -/
structure RcptEntry where
  email : String
  parameters : List (String × String)
  deriving Repr, DecidableEq

/-- The mailFrom part of a JMAP submission envelope. -/
structure MailFrom where
  email : String
  parameters : List (String × String)
  deriving Repr, DecidableEq

/-- A JMAP submission envelope. -/
structure Envelope where
  mailFrom : MailFrom
  rcptTo : List RcptEntry
  deriving Repr, DecidableEq

/-- The HOLDUNTIL parameter carried by an envelope, if any. -/
def Envelope.holduntil (e : Envelope) : Option String :=
  e.mailFrom.parameters.lookup "HOLDUNTIL"

/-- Embeds the envelope construction of futurerelease.py
`email_create_scheduled` (lines 87-96): bare rcptTo entries for
to ++ cc ++ bcc, and a HOLDUNTIL parameter equal to
str(int(get_datetime(scheduled_at).timestamp())) when scheduled. -/
def fr_envelope (from_ : String) (to_ cc bcc : List String)
    (scheduled_at : Option LocalRepr) : Envelope :=
  { mailFrom :=
      { email := from_,
        parameters :=
          match scheduled_at with
          | some r => [("HOLDUNTIL", toString (pyInt r.timestamp))]
          | none => [] },
    rcptTo := ((to_ ++ cc) ++ bcc).map fun addr => { email := addr, parameters := [] } }

/-- Embeds futurerelease.py `email_submission_update_schedule` (lines
209-210): the new wire value of HOLDUNTIL recomputed at update time. -/
def holduntil_update (scheduled_at : LocalRepr) : String :=
  toString (pyInt scheduled_at.timestamp)

/-- One entry of the recipients list handed to the patched email_create:
a type tag (To, Cc or Bcc) and an address. -/
structure Recipient where
  rtype : String
  email : String
  deriving Repr, DecidableEq

/-- Insertion of a string into a sorted list, ordered lexicographically. -/
def insertSorted (x : String) : List String → List String
  | [] => [x]
  | y :: ys => if x ≤ y then x :: y :: ys else y :: insertSorted x ys

/-- Models Python sorted(set(l)): the distinct elements of l in ascending
order. -/
def sortedDistinct (l : List String) : List String :=
  l.dedup.foldr insertSorted []

/-- Embeds the rcptTo construction of monkey_patches.py
`_email_create_with_schedule` (lines 424-433): one entry per element of
sorted(set of recipient emails), each carrying NOTIFY=DELAY,FAILURE and an
ORCPT parameter. -/
def mp_rcptTo (recipients : List Recipient) : List RcptEntry :=
  (sortedDistinct (recipients.map Recipient.email)).map fun rcpt =>
    { email := rcpt,
      parameters := [("NOTIFY", "DELAY,FAILURE"), ("ORCPT", "rfc822;" ++ rcpt)] }

/-- Embeds the mailFrom construction of monkey_patches.py
`_email_create_with_schedule` (lines 414-423), with
holduntil = int(get_datetime(scheduled_at).timestamp()) from lines 231-232. -/
def mp_mailFrom (from_email creation_id : String) (priority : Int)
    (scheduled_at : LocalRepr) : MailFrom :=
  { email := from_email,
    parameters :=
      [("RET", "FULL"),
       ("ENVID", creation_id),
       ("MT-PRIORITY", toString priority),
       ("HOLDUNTIL", toString (pyInt scheduled_at.timestamp))] }

/-- The full envelope built by monkey_patches.py
`_email_create_with_schedule` (lines 411-435). -/
def mp_envelope (from_email creation_id : String) (priority : Int)
    (recipients : List Recipient) (scheduled_at : LocalRepr) : Envelope :=
  { mailFrom := mp_mailFrom from_email creation_id priority scheduled_at,
    rcptTo := mp_rcptTo recipients }

/-! ## Mail Queue records and the cancel / reschedule operations
(api/scheduled.py, api/mail.py) -/

/-- The Mail Queue fields the cancel and reschedule operations read and
write. scheduled_at is epoch seconds; absent means not scheduled. -/
structure MailQueueRec where
  name : String
  id : String
  scheduled_at : Option Int
  status : String
  submission_id : Option String
  error_message : Option String
  deriving Repr, DecidableEq

/-- Outcome of the JMAP cancel attempt (email_submission_cancel): the call
returned, or raised with a message. The embedded operations only branch on
this, so it is passed in abstractly. -/
inductive RemoteCall where
  | ok
  | exn (msg : String)
  deriving Repr, DecidableEq

/-- Result dict of api/scheduled.py `cancel_scheduled_email`. -/
structure CancelResult where
  success : Bool
  jmap_cancelled : Bool
  jmap_error : Option String
  deriving Repr, DecidableEq

/-- Embeds api/scheduled.py `cancel_scheduled_email` (lines 224-313):
lookup, precondition checks (not scheduled, already sent, already
cancelled, past due with a 30 second grace window), best-effort JMAP
cancel whose exception is recorded but not propagated, then the
unconditional local transition to Cancelled. Permission and ownership
checks of the host framework are outside the model. Returns the result
dict and the updated record, or the SchedulerValidationError message. -/
def cancel_scheduled_email (mail_queue : Option MailQueueRec) (now : Int)
    (remote : RemoteCall) : Except String (CancelResult × MailQueueRec) :=
  match mail_queue with
  | none => .error "Scheduled email not found"
  | some mq =>
    match mq.scheduled_at with
    | none => .error "This email is not scheduled"
    | some schedule_time =>
      if mq.status = "Sent" ∨ mq.status = "Delivered" then
        .error "Cannot cancel an email that has already been sent"
      else if mq.status = "Cancelled" then
        .error "This email is already cancelled"
      else if schedule_time ≤ now ∧ now - schedule_time > 30 then
        .error "Cannot cancel an email past its scheduled time"
      else
        let jmap : Bool × Option String :=
          match mq.submission_id, remote with
          | none, _ => (false, none)
          | some _, .ok => (true, none)
          | some _, .exn e => (false, some e)
        .ok ({ success := true, jmap_cancelled := jmap.1, jmap_error := jmap.2 },
             { mq with
                status := "Cancelled",
                error_message := some ("Cancelled by user" ++
                  (match jmap.2 with
                   | some e => " (JMAP: " ++ e ++ ")"
                   | none => "")) })

/-- Embeds api/mail.py `cancel_scheduled_mail` (lines 534-611): the other
cancel entry point. Same precondition checks except that there is no
already-cancelled branch and no grace window: any schedule_time at or
before now is rejected. On success it clears scheduled_at and
submission_id and returns the jmap_cancelled flag with the updated
record. -/
def cancel_scheduled_mail (doc : Option MailQueueRec) (now : Int)
    (remote : RemoteCall) : Except String (Bool × MailQueueRec) :=
  match doc with
  | none => .error "Scheduled email not found"
  | some mq =>
    match mq.scheduled_at with
    | none => .error "This email is not scheduled"
    | some schedule_time =>
      if mq.status = "Sent" ∨ mq.status = "Delivered" then
        .error "Cannot cancel an email that has already been sent"
      else if schedule_time ≤ now then
        .error "Cannot cancel an email past its scheduled time"
      else
        let jmap_cancelled : Bool :=
          match mq.submission_id, remote with
          | none, _ => false
          | some _, .ok => true
          | some _, .exn _ => false
        .ok (jmap_cancelled,
             { mq with
                status := "Cancelled",
                scheduled_at := none,
                submission_id := none,
                error_message := some "Cancelled by user" })

/-- Embeds api/mail.py `reschedule_mail` (lines 616-691): validate the new
time, precondition checks, then a JMAP cancel attempt whose outcome is
swallowed (`except Exception: pass`), unconditional update of scheduled_at
to the new instant and resubmission via doc._process(). The returned pair
is the new scheduled_at and the updated record. `cancelOutcome` is the
outcome of the remote cancel; the source never branches on it. For an
empty new_scheduled_at frappe get_datetime yields the current instant. -/
def reschedule_mail (doc : Option MailQueueRec) (new_scheduled_at : SchedInput)
    (now : Int) (cancelOutcome : RemoteCall) : Except String (Int × MailQueueRec) :=
  match validate_schedule_time new_scheduled_at now with
  | .invalidFormat => .error "Invalid datetime format for scheduled_at"
  | .tooSoon => .error "Scheduled time must be at least 1 minute(s) in the future"
  | .tooFar => .error "Scheduled time cannot be more than 30 days in the future"
  | .ok =>
    match doc with
    | none => .error "Scheduled email not found"
    | some mq =>
      match mq.scheduled_at with
      | none => .error "This email is not scheduled"
      | some _ =>
        if mq.status = "Sent" ∨ mq.status = "Delivered" then
          .error "Cannot reschedule an email that has already been sent"
        else
          let new_dt : Int :=
            match new_scheduled_at with
            | .instant t => t
            | _ => now
          .ok (new_dt, { mq with scheduled_at := some new_dt })

/-- Embeds api/scheduled.py `reschedule_email` (lines 318-401): validate
the new time, precondition checks (including the already-cancelled
rejection), then update only the local scheduled_at. No remote call of any
kind is made: the source notes that JMAP does not support changing
HOLDUNTIL after submission and updates the record for display purposes. -/
def reschedule_email (mail_queue : Option MailQueueRec) (new_scheduled_at : SchedInput)
    (now : Int) : Except String (Int × MailQueueRec) :=
  match validate_schedule_time new_scheduled_at now with
  | .invalidFormat => .error "Invalid datetime format for scheduled_at"
  | .tooSoon => .error "Scheduled time must be at least 1 minute(s) in the future"
  | .tooFar => .error "Scheduled time cannot be more than 30 days in the future"
  | .ok =>
    match mail_queue with
    | none => .error "Scheduled email not found"
    | some mq =>
      match mq.scheduled_at with
      | none => .error "This email is not scheduled"
      | some _ =>
        if mq.status = "Sent" ∨ mq.status = "Delivered" then
          .error "Cannot reschedule an email that has already been sent"
        else if mq.status = "Cancelled" then
          .error "Cannot reschedule a cancelled email"
        else
          let new_dt : Int :=
            match new_scheduled_at with
            | .instant t => t
            | _ => now
          .ok (new_dt, { mq with scheduled_at := some new_dt })

/-! ## The patched email_create (monkey_patches.py) -/

/-- Which send path a call to the patched JMAPClient.email_create ends up
taking: the original immediate-send method, or the scheduled submission
with HOLDUNTIL. -/
inductive SendPath where
  | original
  | scheduled
  deriving Repr, DecidableEq

/-- Outcome of the scheduled creation attempt
(_email_create_with_schedule): it returned, or raised. -/
inductive ScheduledCreateOutcome where
  | ok
  | raises
  deriving Repr, DecidableEq

/-- Embeds monkey_patches.py `patched_email_create` (lines 108-189):
without the scheduled flag, or when saving as draft, the original method
runs; with the flag set to an instant at or before now, the original
method runs (send immediately); otherwise the scheduled creation is
attempted, and if it raises, the call falls back to the original
immediate-send method. The flag holds a datetime placed there by the API
layer, modelled as epoch seconds. -/
def patched_email_create (scheduled_at_flag : Option Int) (save_as_draft : Bool)
    (now : Int) (outcome : ScheduledCreateOutcome) : SendPath :=
  match scheduled_at_flag with
  | none => .original
  | some schedule_dt =>
    if save_as_draft then .original
    else if schedule_dt ≤ now then .original
    else
      match outcome with
      | .ok => .scheduled
      | .raises => .original

/-! ## Listing (api/scheduled.py `get_scheduled_emails`) -/

/-- A caller-supplied pagination parameter: absent (the Python default
applies), a non-numeric string (frappe cint yields 0), or an integer. -/
inductive ApiParam where
  | absent
  | nonNumeric (s : String)
  | val (n : Int)
  deriving Repr, DecidableEq

/-- frappe cint applied to a parameter whose Python signature default is
dflt: absent keeps the default, non-numeric input becomes 0. -/
def cintParam (p : ApiParam) (dflt : Int) : Int :=
  match p with
  | .absent => dflt
  | .nonNumeric _ => 0
  | .val n => n

/-- Embeds line 76 of api/scheduled.py:
limit = min(max(cint(limit) or 20, 1), 100). -/
def effective_limit (limit : ApiParam) : Int :=
  let c := cintParam limit 20
  let c := if c = 0 then 20 else c
  min (max c 1) 100

/-- Embeds line 77 of api/scheduled.py: offset = max(cint(offset) or 0, 0). -/
def effective_offset (offset : ApiParam) : Int :=
  let c := cintParam offset 0
  let c := if c = 0 then 0 else c
  max c 0

/-- Embeds the listing query of api/scheduled.py `get_scheduled_emails`
(lines 97-114): the page returned by frappe.get_all with the clamped
start and limit, over the ordered result set db of matching records. -/
def get_scheduled_emails_page (db : List MailQueueRec) (limit offset : ApiParam) :
    List MailQueueRec :=
  ((db.drop (effective_offset offset).toNat).take (effective_limit limit).toNat)

/-! ## Helper lemmas -/

theorem length_insertSorted (x : String) (l : List String) :
    (insertSorted x l).length = l.length + 1 := by
  induction l with
  | nil => rfl
  | cons y ys ih =>
    simp only [insertSorted]
    split
    · simp
    · simp [ih]

theorem length_foldr_insertSorted (m : List String) :
    (m.foldr insertSorted []).length = m.length := by
  induction m with
  | nil => rfl
  | cons x xs ih => simp [List.foldr, length_insertSorted, ih]

theorem length_sortedDistinct (l : List String) :
    (sortedDistinct l).length = l.dedup.length := by
  unfold sortedDistinct
  exact length_foldr_insertSorted l.dedup

/-! ## Claim theorems -/

/-- C1: for a Scheduled record examined by the sweep, a remote undo state
of final yields Sent, canceled yields Cancelled, pending leaves the status
unchanged, a submission missing from the response yields Sent exactly when
its hold time lies strictly in the past and otherwise leaves the record
Scheduled, and no status other than Sent, Cancelled or Scheduled is ever
produced. -/
theorem sweep_transitions (sub : Option Submission) (hold now : Int) :
    sweep_record_status "Scheduled" (some ⟨some "final"⟩) hold now = "Sent" ∧
    sweep_record_status "Scheduled" (some ⟨some "canceled"⟩) hold now = "Cancelled" ∧
    sweep_record_status "Scheduled" (some ⟨some "pending"⟩) hold now = "Scheduled" ∧
    sweep_record_status "Scheduled" none hold now =
      (if hold < now then "Sent" else "Scheduled") ∧
    (sweep_record_status "Scheduled" sub hold now = "Sent" ∨
     sweep_record_status "Scheduled" sub hold now = "Cancelled" ∨
     sweep_record_status "Scheduled" sub hold now = "Scheduled") := by
  refine ⟨by simp [sweep_record_status], by simp [sweep_record_status],
          by simp [sweep_record_status], by simp [sweep_record_status, check_if_sent], ?_⟩
  cases sub with
  | none =>
    by_cases h : hold < now
    · exact Or.inl (by simp [sweep_record_status, check_if_sent, h])
    · exact Or.inr (Or.inr (by simp [sweep_record_status, check_if_sent, h]))
  | some s =>
    by_cases h1 : s.undoStatus = some "final"
    · exact Or.inl (by simp [sweep_record_status, h1])
    · by_cases h2 : s.undoStatus = some "canceled"
      · exact Or.inr (Or.inl (by simp [sweep_record_status, h1, h2]))
      · exact Or.inr (Or.inr (by simp [sweep_record_status, h1, h2]))

/-- C2 counterexample: an empty scheduled_at is not a parseable absolute
instant lying in the allowed window, yet validation succeeds on it, because
the guard at the top of _validate_schedule_time returns before any check. -/
theorem validate_empty_accepted :
    validate_schedule_time SchedInput.empty 0 = ValidationOutcome.ok := by decide

/-- C2 (amended): for every non-empty requestedAt, validation succeeds
exactly when requestedAt parses to an instant lying in the closed interval
from now + 1 minute to now + 30 days; an unparsable requestedAt fails with
the invalid-format error, an instant earlier than now + 1 minute fails
with the too-soon error, and an instant later than now + 30 days fails
with the too-far error. An empty requestedAt is accepted unchecked. -/
theorem validate_schedule_time_spec (inp : SchedInput) (now : Int)
    (h : inp ≠ SchedInput.empty) :
    (validate_schedule_time inp now = ValidationOutcome.ok ↔
      ∃ t, inp = SchedInput.instant t ∧ now + 60 ≤ t ∧ t ≤ now + 2592000) ∧
    (validate_schedule_time inp now = ValidationOutcome.invalidFormat ↔
      inp = SchedInput.unparsable) ∧
    (validate_schedule_time inp now = ValidationOutcome.tooSoon ↔
      ∃ t, inp = SchedInput.instant t ∧ t < now + 60) ∧
    (validate_schedule_time inp now = ValidationOutcome.tooFar ↔
      ∃ t, inp = SchedInput.instant t ∧ now + 2592000 < t) := by
  cases inp with
  | empty => exact absurd rfl h
  | unparsable => refine ⟨?_, ?_, ?_, ?_⟩ <;> simp [validate_schedule_time]
  | instant t =>
    have e1 : MIN_SCHEDULE_MINUTES * 60 = 60 := by norm_num [MIN_SCHEDULE_MINUTES]
    have e2 : MAX_SCHEDULE_DAYS * 86400 = 2592000 := by norm_num [MAX_SCHEDULE_DAYS]
    simp only [validate_schedule_time, e1, e2]
    split_ifs with h1 h2 <;> refine ⟨?_, ?_, ?_, ?_⟩ <;> simp <;> omega

/-- C2 witness: the amended characterisation at the concrete instant 100
seconds after now = 0, which falls in the too-soon region. -/
theorem validate_schedule_time_spec_witness :
    SchedInput.instant 100 ≠ SchedInput.empty ∧
    ((validate_schedule_time (SchedInput.instant 100) 0 = ValidationOutcome.ok ↔
      ∃ t, SchedInput.instant 100 = SchedInput.instant t ∧ 0 + 60 ≤ t ∧ t ≤ 0 + 2592000) ∧
    (validate_schedule_time (SchedInput.instant 100) 0 = ValidationOutcome.invalidFormat ↔
      SchedInput.instant 100 = SchedInput.unparsable) ∧
    (validate_schedule_time (SchedInput.instant 100) 0 = ValidationOutcome.tooSoon ↔
      ∃ t, SchedInput.instant 100 = SchedInput.instant t ∧ t < 0 + 60) ∧
    (validate_schedule_time (SchedInput.instant 100) 0 = ValidationOutcome.tooFar ↔
      ∃ t, SchedInput.instant 100 = SchedInput.instant t ∧ 0 + 2592000 < t)) :=
  ⟨by decide, validate_schedule_time_spec (SchedInput.instant 100) 0 (by decide)⟩

/-- C10: the listing operation clamps the effective page size into the
range 1 to 100 for every caller-supplied limit, uses 20 for an absent or
non-numeric limit, clamps the effective offset to at least 0, and the
returned page never has more than 100 entries. -/
theorem get_scheduled_emails_clamps (limit offset : ApiParam) (s : String)
    (db : List MailQueueRec) :
    1 ≤ effective_limit limit ∧ effective_limit limit ≤ 100 ∧
    0 ≤ effective_offset offset ∧
    effective_limit ApiParam.absent = 20 ∧
    effective_limit (ApiParam.nonNumeric s) = 20 ∧
    (get_scheduled_emails_page db limit offset).length ≤ 100 := by
  have h1 : 1 ≤ effective_limit limit ∧ effective_limit limit ≤ 100 := by
    unfold effective_limit
    cases limit <;> simp [cintParam] <;> omega
  refine ⟨h1.1, h1.2, ?_, by decide, by simp [effective_limit, cintParam], ?_⟩
  · unfold effective_offset
    cases offset <;> simp [cintParam] <;> omega
  · have h2 := h1.2
    simp only [get_scheduled_emails_page, List.length_take]
    omega

/-- C3: the HOLDUNTIL value placed in the sender envelope equals the
scheduled instant's epoch seconds truncated to an integer (floor, for the
nonnegative timestamps of future sends), it depends only on the absolute
instant and not on the timezone representation or any other builder input,
and the monkey-patch build site, the futurerelease build site and the
update-schedule site all encode it identically. -/
theorem holduntil_encoding (r1 r2 : LocalRepr) (f1 f2 f3 c1 c2 : String)
    (p1 p2 : Int) (recs1 recs2 : List Recipient) (to_ cc bcc : List String)
    (hsame : r1.timestamp = r2.timestamp) (hpos : 0 ≤ r1.timestamp) :
    (mp_envelope f1 c1 p1 recs1 r1).holduntil = some (toString ⌊r1.timestamp⌋) ∧
    (fr_envelope f3 to_ cc bcc (some r1)).holduntil = some (toString ⌊r1.timestamp⌋) ∧
    holduntil_update r1 = toString ⌊r1.timestamp⌋ ∧
    (mp_envelope f1 c1 p1 recs1 r1).holduntil = (mp_envelope f2 c2 p2 recs2 r2).holduntil := by
  have hp : pyInt r1.timestamp = ⌊r1.timestamp⌋ := if_pos hpos
  have hp2 : pyInt r2.timestamp = ⌊r1.timestamp⌋ := by
    rw [← hsame]
    exact hp
  refine ⟨?_, ?_, ?_, ?_⟩
  · show some (toString (pyInt r1.timestamp)) = _
    rw [hp]
  · show some (toString (pyInt r1.timestamp)) = _
    rw [hp]
  · show toString (pyInt r1.timestamp) = _
    rw [hp]
  · show some (toString (pyInt r1.timestamp)) = some (toString (pyInt r2.timestamp))
    rw [hp, hp2]

/-- C3 witness: two distinct timezone representations of the same instant
3600.5 seconds after the epoch, truncated consistently to 3600 at all
three encoding sites. -/
theorem holduntil_encoding_witness :
    (LocalRepr.mk (7201/2) 0).timestamp = (LocalRepr.mk (14401/2) 3600).timestamp ∧
    0 ≤ (LocalRepr.mk (7201/2) 0).timestamp ∧
    ((mp_envelope "a@x" "1" 0 [] (LocalRepr.mk (7201/2) 0)).holduntil
        = some (toString ⌊(LocalRepr.mk (7201/2) 0).timestamp⌋) ∧
     (fr_envelope "b@x" ["r@x"] [] [] (some (LocalRepr.mk (7201/2) 0))).holduntil
        = some (toString ⌊(LocalRepr.mk (7201/2) 0).timestamp⌋) ∧
     holduntil_update (LocalRepr.mk (7201/2) 0)
        = toString ⌊(LocalRepr.mk (7201/2) 0).timestamp⌋ ∧
     (mp_envelope "a@x" "1" 0 [] (LocalRepr.mk (7201/2) 0)).holduntil
        = (mp_envelope "c@x" "2" 1 [Recipient.mk "To" "r@x"] (LocalRepr.mk (14401/2) 3600)).holduntil) :=
  ⟨by norm_num [LocalRepr.timestamp], by norm_num [LocalRepr.timestamp],
   holduntil_encoding (LocalRepr.mk (7201/2) 0) (LocalRepr.mk (14401/2) 3600)
     "a@x" "c@x" "b@x" "1" "2" 0 1 [] [Recipient.mk "To" "r@x"] ["r@x"] [] []
     (by norm_num [LocalRepr.timestamp]) (by norm_num [LocalRepr.timestamp])⟩

/-- C4: once the precondition checks pass, the cancel operation always
transitions the local record to Cancelled and reports success, whatever
the outcome of the remote JMAP cancel call. -/
theorem cancel_always_cancels (mq : MailQueueRec) (s now : Int) (remote : RemoteCall)
    (hsched : mq.scheduled_at = some s)
    (hsent : mq.status ≠ "Sent" ∧ mq.status ≠ "Delivered")
    (hcan : mq.status ≠ "Cancelled")
    (hdue : ¬(s ≤ now ∧ now - s > 30)) :
    ∃ res mq2, cancel_scheduled_email (some mq) now remote = Except.ok (res, mq2) ∧
      res.success = true ∧ mq2.status = "Cancelled" := by
  simp only [cancel_scheduled_email, hsched]
  rw [if_neg (not_or.mpr hsent), if_neg hcan, if_neg hdue]
  exact ⟨_, _, rfl, rfl, rfl⟩

/-- C4 witness: a scheduled record whose remote cancel raises is still
transitioned to Cancelled with a successful result. -/
theorem cancel_always_cancels_witness :
    (MailQueueRec.mk "q1" "m1" (some 100) "Submitted" (some "sub1") none).scheduled_at = some 100 ∧
    ((MailQueueRec.mk "q1" "m1" (some 100) "Submitted" (some "sub1") none).status ≠ "Sent" ∧
     (MailQueueRec.mk "q1" "m1" (some 100) "Submitted" (some "sub1") none).status ≠ "Delivered") ∧
    (MailQueueRec.mk "q1" "m1" (some 100) "Submitted" (some "sub1") none).status ≠ "Cancelled" ∧
    ¬((100 : Int) ≤ 0 ∧ (0 : Int) - 100 > 30) ∧
    (∃ res mq2,
      cancel_scheduled_email
        (some (MailQueueRec.mk "q1" "m1" (some 100) "Submitted" (some "sub1") none)) 0
        (RemoteCall.exn "boom") = Except.ok (res, mq2) ∧
      res.success = true ∧ mq2.status = "Cancelled") :=
  ⟨by decide, ⟨by decide, by decide⟩, by decide, by decide,
   cancel_always_cancels (MailQueueRec.mk "q1" "m1" (some 100) "Submitted" (some "sub1") none)
     100 0 (RemoteCall.exn "boom") (by decide) ⟨by decide, by decide⟩ (by decide) (by decide)⟩

/-- C5 counterexample: a reschedule where the remote cancel raises (the
server refuses the cancellation) does not fail with any AlreadyFinalized
error and does not leave the record untouched: it succeeds and overwrites
scheduled_at with the new instant. -/
theorem reschedule_refused_cancel_still_updates :
    reschedule_mail
      (some (MailQueueRec.mk "q1" "m1" (some 5000) "Submitted" (some "sub1") none))
      (SchedInput.instant 100000) 0 (RemoteCall.exn "already finalized")
    = Except.ok (100000,
        MailQueueRec.mk "q1" "m1" (some 100000) "Submitted" (some "sub1") none) := by
  rfl

/-- C5 (amended): when the remote cancel attempt of a reschedule is
refused, the operation does not fail: reschedule_mail swallows the cancel
outcome entirely (its result is the same for every outcome) and updates
scheduled_at to the new instant before resubmitting, and reschedule_email
never contacts the server at all and updates only the local scheduled_at.
No AlreadyFinalized error exists in the code. -/
theorem reschedule_ignores_cancel_outcome (mq : MailQueueRec) (s t now : Int)
    (o1 o2 : RemoteCall)
    (hsched : mq.scheduled_at = some s)
    (hsent : mq.status ≠ "Sent" ∧ mq.status ≠ "Delivered")
    (hcan : mq.status ≠ "Cancelled")
    (hvalid : now + 60 ≤ t ∧ t ≤ now + 2592000) :
    reschedule_mail (some mq) (SchedInput.instant t) now o1 =
      Except.ok (t, { mq with scheduled_at := some t }) ∧
    reschedule_mail (some mq) (SchedInput.instant t) now o1 =
      reschedule_mail (some mq) (SchedInput.instant t) now o2 ∧
    reschedule_email (some mq) (SchedInput.instant t) now =
      Except.ok (t, { mq with scheduled_at := some t }) := by
  have hv : validate_schedule_time (SchedInput.instant t) now = ValidationOutcome.ok := by
    have e1 : MIN_SCHEDULE_MINUTES * 60 = 60 := by norm_num [MIN_SCHEDULE_MINUTES]
    have e2 : MAX_SCHEDULE_DAYS * 86400 = 2592000 := by norm_num [MAX_SCHEDULE_DAYS]
    simp only [validate_schedule_time, e1, e2]
    rw [if_neg (by omega), if_neg (by omega)]
  refine ⟨?_, ?_, ?_⟩
  · simp only [reschedule_mail, hv, hsched]
    rw [if_neg (not_or.mpr hsent)]
  · simp only [reschedule_mail, hv, hsched]
  · simp only [reschedule_email, hv, hsched]
    rw [if_neg (not_or.mpr hsent), if_neg hcan]

/-- C5 witness: the amended behaviour at a concrete scheduled record, with
two different remote cancel outcomes. -/
theorem reschedule_ignores_cancel_outcome_witness :
    (MailQueueRec.mk "q2" "m2" (some 5000) "Submitted" (some "sub2") none).scheduled_at = some 5000 ∧
    ((MailQueueRec.mk "q2" "m2" (some 5000) "Submitted" (some "sub2") none).status ≠ "Sent" ∧
     (MailQueueRec.mk "q2" "m2" (some 5000) "Submitted" (some "sub2") none).status ≠ "Delivered") ∧
    (MailQueueRec.mk "q2" "m2" (some 5000) "Submitted" (some "sub2") none).status ≠ "Cancelled" ∧
    ((0 : Int) + 60 ≤ 100000 ∧ (100000 : Int) ≤ 0 + 2592000) ∧
    (reschedule_mail (some (MailQueueRec.mk "q2" "m2" (some 5000) "Submitted" (some "sub2") none))
        (SchedInput.instant 100000) 0 (RemoteCall.exn "already finalized") =
      Except.ok (100000,
        { MailQueueRec.mk "q2" "m2" (some 5000) "Submitted" (some "sub2") none with
            scheduled_at := some 100000 }) ∧
     reschedule_mail (some (MailQueueRec.mk "q2" "m2" (some 5000) "Submitted" (some "sub2") none))
        (SchedInput.instant 100000) 0 (RemoteCall.exn "already finalized") =
      reschedule_mail (some (MailQueueRec.mk "q2" "m2" (some 5000) "Submitted" (some "sub2") none))
        (SchedInput.instant 100000) 0 RemoteCall.ok ∧
     reschedule_email (some (MailQueueRec.mk "q2" "m2" (some 5000) "Submitted" (some "sub2") none))
        (SchedInput.instant 100000) 0 =
      Except.ok (100000,
        { MailQueueRec.mk "q2" "m2" (some 5000) "Submitted" (some "sub2") none with
            scheduled_at := some 100000 })) :=
  ⟨by decide, ⟨by decide, by decide⟩, by decide, by decide,
   reschedule_ignores_cancel_outcome
     (MailQueueRec.mk "q2" "m2" (some 5000) "Submitted" (some "sub2") none)
     5000 100000 0 (RemoteCall.exn "already finalized") RemoteCall.ok
     (by decide) ⟨by decide, by decide⟩ (by decide) (by decide)⟩

/-- C6 counterexample: cancelling twice is not error-free. The first call
on a scheduled record succeeds and yields Cancelled; the second call on
the resulting record raises the already-cancelled validation error. -/
theorem cancel_twice_second_errors :
    cancel_scheduled_email
      (some (MailQueueRec.mk "q1" "m1" (some 100) "Submitted" (some "sub1") none)) 0
      RemoteCall.ok
    = Except.ok (CancelResult.mk true true none,
        MailQueueRec.mk "q1" "m1" (some 100) "Cancelled" (some "sub1")
          (some "Cancelled by user")) ∧
    cancel_scheduled_email
      (some (MailQueueRec.mk "q1" "m1" (some 100) "Cancelled" (some "sub1")
        (some "Cancelled by user"))) 0 RemoteCall.ok
    = Except.error "This email is already cancelled" := by
  constructor
  · rfl
  · rfl

/-- C6 (amended): cancel is not idempotent at the public interface. Any
record returned by a successful cancel has status Cancelled, and a second
cancel of it, at any instant and with any remote outcome, is rejected with
the already-cancelled validation error rather than succeeding again. -/
theorem cancel_not_idempotent (mq mq2 : MailQueueRec) (now now2 : Int)
    (r1 r2 : RemoteCall) (res : CancelResult)
    (h : cancel_scheduled_email (some mq) now r1 = Except.ok (res, mq2)) :
    mq2.status = "Cancelled" ∧
    cancel_scheduled_email (some mq2) now2 r2 =
      Except.error "This email is already cancelled" := by
  cases hsched : mq.scheduled_at with
  | none =>
    simp only [cancel_scheduled_email, hsched] at h
    exact absurd h (by simp)
  | some s =>
    simp only [cancel_scheduled_email, hsched] at h
    split_ifs at h with h1 h2 h3
    have hpair := Except.ok.inj h
    rw [Prod.mk.injEq] at hpair
    obtain ⟨-, hmq2⟩ := hpair
    rw [← hmq2]
    refine ⟨rfl, ?_⟩
    simp [cancel_scheduled_email]

/-- C6 witness: the amended statement at a concrete first cancel. -/
theorem cancel_not_idempotent_witness :
    (cancel_scheduled_email
      (some (MailQueueRec.mk "q3" "m3" (some 100) "Submitted" none none)) 0
      RemoteCall.ok
    = Except.ok (CancelResult.mk true false none,
        MailQueueRec.mk "q3" "m3" (some 100) "Cancelled" none
          (some "Cancelled by user"))) ∧
    ((MailQueueRec.mk "q3" "m3" (some 100) "Cancelled" none
        (some "Cancelled by user")).status = "Cancelled" ∧
     cancel_scheduled_email
      (some (MailQueueRec.mk "q3" "m3" (some 100) "Cancelled" none
        (some "Cancelled by user"))) 50 (RemoteCall.exn "late")
      = Except.error "This email is already cancelled") :=
  ⟨by rfl,
   cancel_not_idempotent
     (MailQueueRec.mk "q3" "m3" (some 100) "Submitted" none none)
     (MailQueueRec.mk "q3" "m3" (some 100) "Cancelled" none (some "Cancelled by user"))
     0 50 RemoteCall.ok (RemoteCall.exn "late")
     (CancelResult.mk true false none) (by rfl)⟩

/-- C7 counterexample: ten seconds past the scheduled instant, inside the
grace window, the scheduled.py cancel entry point still cancels, but the
mail.py cancel entry point rejects with the past-due error: the grace
window does not hold for every cancel entry point. -/
theorem grace_window_not_in_every_entry_point :
    cancel_scheduled_mail
      (some (MailQueueRec.mk "q1" "m1" (some (-10)) "Submitted" (some "sub1") none)) 0
      RemoteCall.ok
    = Except.error "Cannot cancel an email past its scheduled time" ∧
    cancel_scheduled_email
      (some (MailQueueRec.mk "q1" "m1" (some (-10)) "Submitted" (some "sub1") none)) 0
      RemoteCall.ok
    = Except.ok (CancelResult.mk true true none,
        MailQueueRec.mk "q1" "m1" (some (-10)) "Cancelled" (some "sub1")
          (some "Cancelled by user")) := by
  constructor
  · rfl
  · rfl

/-- C7 (amended): for a record whose hold instant is at or before now, the
scheduled.py cancel entry point rejects with the past-due error exactly
when more than 30 seconds have elapsed, and still cancels within the
30-second grace window; the mail.py cancel entry point rejects with the
past-due error unconditionally, with no grace window. -/
theorem cancel_past_due_grace (mq : MailQueueRec) (s now : Int) (remote : RemoteCall)
    (hsched : mq.scheduled_at = some s)
    (hsent : mq.status ≠ "Sent" ∧ mq.status ≠ "Delivered")
    (hcan : mq.status ≠ "Cancelled")
    (hpast : s ≤ now) :
    (30 < now - s → cancel_scheduled_email (some mq) now remote =
        Except.error "Cannot cancel an email past its scheduled time") ∧
    (now - s ≤ 30 → ∃ res mq2, cancel_scheduled_email (some mq) now remote =
        Except.ok (res, mq2) ∧ mq2.status = "Cancelled") ∧
    cancel_scheduled_mail (some mq) now remote =
      Except.error "Cannot cancel an email past its scheduled time" := by
  refine ⟨?_, ?_, ?_⟩
  · intro hlate
    simp only [cancel_scheduled_email, hsched]
    rw [if_neg (not_or.mpr hsent), if_neg hcan, if_pos ⟨hpast, hlate⟩]
  · intro hgrace
    obtain ⟨res, mq2, hok, -, hst⟩ :=
      cancel_always_cancels mq s now remote hsched hsent hcan (by omega)
    exact ⟨res, mq2, hok, hst⟩
  · simp only [cancel_scheduled_mail, hsched]
    rw [if_neg (not_or.mpr hsent), if_pos hpast]

/-- C7 witness: the amended statement ten seconds past the scheduled
instant. -/
theorem cancel_past_due_grace_witness :
    (MailQueueRec.mk "q4" "m4" (some (-10)) "Submitted" (some "sub4") none).scheduled_at
      = some (-10) ∧
    ((MailQueueRec.mk "q4" "m4" (some (-10)) "Submitted" (some "sub4") none).status ≠ "Sent" ∧
     (MailQueueRec.mk "q4" "m4" (some (-10)) "Submitted" (some "sub4") none).status ≠ "Delivered") ∧
    (MailQueueRec.mk "q4" "m4" (some (-10)) "Submitted" (some "sub4") none).status ≠ "Cancelled" ∧
    ((-10 : Int) ≤ 0) ∧
    ((30 < (0 : Int) - (-10) → cancel_scheduled_email
        (some (MailQueueRec.mk "q4" "m4" (some (-10)) "Submitted" (some "sub4") none)) 0
        RemoteCall.ok = Except.error "Cannot cancel an email past its scheduled time") ∧
     ((0 : Int) - (-10) ≤ 30 → ∃ res mq2, cancel_scheduled_email
        (some (MailQueueRec.mk "q4" "m4" (some (-10)) "Submitted" (some "sub4") none)) 0
        RemoteCall.ok = Except.ok (res, mq2) ∧ mq2.status = "Cancelled") ∧
     cancel_scheduled_mail
        (some (MailQueueRec.mk "q4" "m4" (some (-10)) "Submitted" (some "sub4") none)) 0
        RemoteCall.ok = Except.error "Cannot cancel an email past its scheduled time") :=
  ⟨by decide, ⟨by decide, by decide⟩, by decide, by decide,
   cancel_past_due_grace
     (MailQueueRec.mk "q4" "m4" (some (-10)) "Submitted" (some "sub4") none)
     (-10) 0 RemoteCall.ok (by decide) ⟨by decide, by decide⟩ (by decide) (by decide)⟩

/-- C8 counterexample: when the scheduled creation raises, the patched
email_create does not fail the record: it falls back to the original
immediate-send path, so the message is sent by an alternative path and no
Failed transition occurs. -/
theorem scheduled_create_failure_falls_back :
    patched_email_create (some 1000) false 0 ScheduledCreateOutcome.raises
      = SendPath.original := by decide

/-- C8 (amended): for a scheduled (non-draft, future-instant) create, a
raising scheduled submission sends the message through the original
immediate-send path, and only a non-raising one takes the scheduled path;
the patch never produces a Failed state. -/
theorem patched_create_fallback (t now : Int) (h : now < t) :
    patched_email_create (some t) false now ScheduledCreateOutcome.raises
      = SendPath.original ∧
    patched_email_create (some t) false now ScheduledCreateOutcome.ok
      = SendPath.scheduled := by
  simp only [patched_email_create, if_neg (show ¬t ≤ now by omega)]
  exact ⟨rfl, rfl⟩

/-- C8 witness: the fallback at the concrete instant 1000 with now = 0. -/
theorem patched_create_fallback_witness :
    (0 : Int) < 1000 ∧
    (patched_email_create (some 1000) false 0 ScheduledCreateOutcome.raises
       = SendPath.original ∧
     patched_email_create (some 1000) false 0 ScheduledCreateOutcome.ok
       = SendPath.scheduled) :=
  ⟨by decide, patched_create_fallback 1000 0 (by decide)⟩

/-- C9 counterexample: a recipient listed under To and Cc with the same
address yields a single rcptTo entry in the monkey-patch envelope, not one
entry per recipient of the input list; and the futurerelease envelope
carries no delivery-notification parameters on its entries at all. -/
theorem envelope_recipients_counterexample :
    (mp_rcptTo [Recipient.mk "To" "a@x.com", Recipient.mk "Cc" "a@x.com"]).length = 1 ∧
    (fr_envelope "f@x.com" ["a@x.com"] [] [] (some (LocalRepr.mk 3600 0))).rcptTo
      = [RcptEntry.mk "a@x.com" []] := by
  constructor
  · rfl
  · rfl

/-- C9 (amended): the monkey-patch envelope builder produces exactly one
rcptTo entry per distinct recipient email address (the sorted set of the
input addresses, so duplicates collapse), each carrying the NOTIFY
DELAY,FAILURE delivery-notification preference; the futurerelease wrapper
builder produces one bare entry per recipient of to ++ cc ++ bcc with no
notification parameters. -/
theorem envelope_recipients (recs : List Recipient) (f g cid : String) (p : Int)
    (r : LocalRepr) (to_ cc bcc : List String) :
    ((mp_envelope f cid p recs r).rcptTo.map RcptEntry.email
        = sortedDistinct (recs.map Recipient.email)) ∧
    ((mp_envelope f cid p recs r).rcptTo.length
        = (recs.map Recipient.email).dedup.length) ∧
    (∀ e ∈ (mp_envelope f cid p recs r).rcptTo,
        ("NOTIFY", "DELAY,FAILURE") ∈ e.parameters) ∧
    ((fr_envelope g to_ cc bcc (some r)).rcptTo.length
        = to_.length + cc.length + bcc.length) ∧
    (∀ e ∈ (fr_envelope g to_ cc bcc (some r)).rcptTo, e.parameters = []) := by
  refine ⟨?_, ?_, ?_, ?_, ?_⟩
  · simp only [mp_envelope, mp_rcptTo, List.map_map]
    exact List.map_id _
  · simp [mp_envelope, mp_rcptTo, length_sortedDistinct]
  · intro e he
    simp only [mp_envelope, mp_rcptTo, List.mem_map] at he
    obtain ⟨rcpt, -, hrfl⟩ := he
    rw [← hrfl]
    simp
  · simp [fr_envelope]
    omega
  · intro e he
    simp only [fr_envelope, List.mem_map] at he
    obtain ⟨addr, -, hrfl⟩ := he
    rw [← hrfl]

end MailScheduler
